import Mathlib

/-!
Verification of the LiDAR point-cloud processing core
(`lidar_api/core/processor.py`, `lidar_api/core/loader.py` and the
point-serving route of `lidar_api/api/routes.py`).

The numeric code operates on IEEE-754 doubles; the embedding models the
arithmetic over exact rationals (`ℚ`).  Where a claim is specifically about
binary64 rounding, an exact model of round-to-nearest-even binary64
arithmetic over `ℚ` is used (`fl64` below).

`np.random.choice(n, size=k, replace=False)` draws are modelled by passing
the drawn index list explicitly; `ValidDraw n k indices` characterises
exactly the possible outputs of such a draw (`k` distinct indices below
`n`).
-/

/-- A 3-vector of rationals: one point `[x, y, z]` or one color `[r, g, b]`. -/
structure P3 where
  x : ℚ
  y : ℚ
  z : ℚ
deriving DecidableEq, Repr

/-- Python `int()` applied to an exact value: truncation toward zero. -/
def pyInt (q : ℚ) : ℤ := if q < 0 then ⌈q⌉ else ⌊q⌋

/-- Round a rational to the nearest integer, ties to even. -/
def roundNE (x : ℚ) : ℤ :=
  let f := ⌊x⌋
  let r := x - (f : ℚ)
  if r < 1/2 then f
  else if 1/2 < r then f + 1
  else if 2 ∣ f then f else f + 1

/-- Binary64 rounding of a nonnegative rational: round-to-nearest-even at
53 significant bits.  Exponent overflow/underflow is not modelled (all
values in this development lie well inside the binary64 normal range). -/
def fl64abs (q : ℚ) : ℚ :=
  if q = 0 then 0
  else
    let e : ℤ := Int.log 2 q
    (roundNE (q * 2 ^ (52 - e)) : ℚ) / 2 ^ (52 - e)

/-- Binary64 rounding of a rational (round-to-nearest-even, 53-bit
significand): the value an IEEE double operation returns when its exact
result is `q`. -/
def fl64 (q : ℚ) : ℚ := if q < 0 then -fl64abs (-q) else fl64abs q

/-- Insert into a sorted list of indices (helper for `np.sort`). -/
def insertNat (a : ℕ) : List ℕ → List ℕ
  | [] => [a]
  | b :: r => if a ≤ b then a :: b :: r else b :: insertNat a r

/-- `np.sort` on an index array, modelled as insertion sort. -/
def sortNat (l : List ℕ) : List ℕ := l.foldr insertNat []

/-- Fancy indexing `xs[indices]`: gather the elements at the given
indices.  Out-of-range indices contribute nothing (they never occur under
a `ValidDraw`). -/
def gather (xs : List α) (indices : List ℕ) : List α :=
  indices.filterMap (fun i => xs[i]?)

/-- The possible outputs of `np.random.choice(n, size=k, replace=False)`:
`k` pairwise-distinct indices, each below `n`. -/
def ValidDraw (n k : ℕ) (indices : List ℕ) : Prop :=
  indices.length = k ∧ indices.Nodup ∧ ∀ i ∈ indices, i < n

/-- Errors the numpy calls in the processor can raise. -/
inductive NpError where
  /-- `np.random.choice` with a negative `size` raises
  `ValueError: negative dimensions are not allowed`. -/
  | negativeSize : NpError
  /-- `np.min` / `np.max` of an empty array raises
  `ValueError: zero-size array to reduction operation`. -/
  | emptyReduction : NpError
deriving DecidableEq, Repr

/-- `PointCloudProcessor.downsample_random` (processor.py:14-44).
```
if sample_rate >= 1.0: return points, colors
n_points = len(points)
n_sample = int(n_points * sample_rate)
indices = np.random.choice(n_points, size=n_sample, replace=False)
indices = np.sort(indices)
return points[indices], colors[indices] if colors is not None else None
```
The random draw is the explicit argument `draw`; callers state
`ValidDraw n_points n_sample draw` to say it is a possible choice output.
A negative `n_sample` makes `np.random.choice` raise. -/
def downsample_random (points : List P3) (colors : Option (List P3))
    (sample_rate : ℚ) (draw : List ℕ) :
    Except NpError (List P3 × Option (List P3)) :=
  if 1 ≤ sample_rate then .ok (points, colors)
  else
    let n_points := points.length
    let n_sample := pyInt ((n_points : ℚ) * sample_rate)
    if n_sample < 0 then .error .negativeSize
    else
      let indices := sortNat draw
      .ok (gather points indices, colors.map (fun cs => gather cs indices))

/-- `PointCloudProcessor.limit_points` (processor.py:46-65).
```
if len(points) <= max_points: return points, colors
sample_rate = max_points / len(points)
return downsample_random(points, colors, sample_rate)
``` -/
def limit_points (points : List P3) (colors : Option (List P3))
    (max_points : ℕ) (draw : List ℕ) :
    Except NpError (List P3 × Option (List P3)) :=
  if points.length ≤ max_points then .ok (points, colors)
  else
    let sample_rate : ℚ := (max_points : ℚ) / (points.length : ℚ)
    downsample_random points colors sample_rate draw

/-- The number of points `limit_points` keeps when it reduces, computed as
the interpreter computes it: `int(n_points * sample_rate)` where
`sample_rate = max_points / n_points` is a binary64 division and the
product is a binary64 multiplication (processor.py:64 and :32). -/
def limitFloatCount (n_points max_points : ℕ) : ℕ :=
  if n_points ≤ max_points then n_points
  else (pyInt (fl64 ((n_points : ℚ) * fl64 ((max_points : ℚ) / (n_points : ℚ))))).toNat

/-- The per-point height gradient of `generate_height_colors`
(processor.py:89-109) after the three mask assignments: colors start at
zero, `t < 0.33` sets blue and green, `0.33 ≤ t < 0.67` sets red, green
and blue, and `t ≥ 0.67` sets red and green (blue stays 0). -/
def heightGradient (t : ℚ) : P3 :=
  if t < 33/100 then
    { x := 0, y := t / (33/100), z := 1 }
  else if t < 67/100 then
    { x := (t - 33/100) / (34/100), y := 1, z := 1 - (t - 33/100) / (34/100) }
  else
    { x := 1, y := 1 - (t - 67/100) / (33/100), z := 0 }

/-- `np.min` of a 1-d array via a `min`-fold; `none` on the empty array,
where `np.min` raises. -/
def npMin : List ℚ → Option ℚ
  | [] => none
  | a :: r => some (r.foldl min a)

/-- `np.max` of a 1-d array via a `max`-fold; `none` on the empty array,
where `np.max` raises. -/
def npMax : List ℚ → Option ℚ
  | [] => none
  | a :: r => some (r.foldl max a)

/-- `PointCloudProcessor.generate_height_colors` (processor.py:67-111).
```
z_coords = points[:, 2]
z_min, z_max = np.min(z_coords), np.max(z_coords)   # raises on empty
if z_max == z_min: return np.ones((len(points), 3)) * 0.5
normalized_height = (z_coords - z_min) / (z_max - z_min)
... three-segment gradient via masks ...
```
On the empty cloud `np.min` of a zero-size array raises `ValueError`, so
the model returns `.error .emptyReduction`. -/
def generate_height_colors (points : List P3) : Except NpError (List P3) :=
  let z_coords := points.map P3.z
  match npMin z_coords, npMax z_coords with
  | some z_min, some z_max =>
    if z_max = z_min then
      .ok (List.replicate points.length { x := 1/2, y := 1/2, z := 1/2 })
    else
      .ok (z_coords.map (fun z => heightGradient ((z - z_min) / (z_max - z_min))))
  | _, _ => .error .emptyReduction

/-- `PointCloudProcessor.generate_intensity_colors` (processor.py:113-141).
```
if len(intensity) == 0: return np.array([]).reshape(0, 3)
i_min, i_max = np.min(intensity), np.max(intensity)
if i_max == i_min: return np.ones((len(intensity), 3)) * 0.5
normalized = (intensity - i_min) / (i_max - i_min)
return np.column_stack((normalized, normalized, normalized))
``` -/
def generate_intensity_colors (intensity : List ℚ) : List P3 :=
  match npMin intensity, npMax intensity with
  | some i_min, some i_max =>
    if i_max = i_min then
      List.replicate intensity.length { x := 1/2, y := 1/2, z := 1/2 }
    else
      intensity.map (fun i =>
        let t := (i - i_min) / (i_max - i_min)
        { x := t, y := t, z := t })
  | _, _ => []

/-- The `current_size` computed by `normalize_scale` (processor.py:173-175):
`np.max(np.max(points, axis=0) - np.min(points, axis=0))`; `none` on the
empty cloud, where the reductions raise. -/
def cloudExtent (points : List P3) : Option ℚ :=
  match npMin (points.map P3.x), npMax (points.map P3.x),
        npMin (points.map P3.y), npMax (points.map P3.y),
        npMin (points.map P3.z), npMax (points.map P3.z) with
  | some minx, some maxx, some miny, some maxy, some minz, some maxz =>
    some (max (max (maxx - minx) (maxy - miny)) (maxz - minz))
  | _, _, _, _, _, _ => none

/-- `PointCloudProcessor.normalize_scale` (processor.py:158-184).
```
min_coords = np.min(points, axis=0)    # raises on empty
max_coords = np.max(points, axis=0)
current_size = np.max(max_coords - min_coords)
if current_size == 0: return points, 1.0
scale_factor = target_size / current_size
return points * scale_factor, scale_factor
``` -/
def normalize_scale (points : List P3) (target_size : ℚ) :
    Except NpError (List P3 × ℚ) :=
  match cloudExtent points with
  | some current_size =>
    if current_size = 0 then .ok (points, 1)
    else
      let scale_factor := target_size / current_size
      .ok (points.map (fun p =>
        { x := p.x * scale_factor, y := p.y * scale_factor,
          z := p.z * scale_factor }), scale_factor)
  | none => .error .emptyReduction

/-- `PointCloudBounds` (models/schemas.py): six scalar bounds. -/
structure PointCloudBounds where
  min_x : ℚ
  max_x : ℚ
  min_y : ℚ
  max_y : ℚ
  min_z : ℚ
  max_z : ℚ
deriving DecidableEq, Repr

/-- `LiDARLoader.calculate_bounds` (loader.py:143-171).
```
if len(points) == 0:
    return PointCloudBounds(min_x=0.0, max_x=0.0, ..., min_z=0.0, max_z=0.0)
min_coords = np.min(points, axis=0)
max_coords = np.max(points, axis=0)
return PointCloudBounds(min_x=min_coords[0], max_x=max_coords[0], ...)
``` -/
def calculate_bounds (points : List P3) : PointCloudBounds :=
  match npMin (points.map P3.x), npMax (points.map P3.x),
        npMin (points.map P3.y), npMax (points.map P3.y),
        npMin (points.map P3.z), npMax (points.map P3.z) with
  | some minx, some maxx, some miny, some maxy, some minz, some maxz =>
    { min_x := minx, max_x := maxx, min_y := miny, max_y := maxy,
      min_z := minz, max_z := maxz }
  | _, _, _, _, _, _ =>
    { min_x := 0, max_x := 0, min_y := 0, max_y := 0, min_z := 0, max_z := 0 }

/-- The header-field surface of a loaded `laspy.LasData` object that
`LiDARLoader.get_metadata` touches.  An accessor that would raise
`AttributeError` in a given laspy version is modelled as `none`. -/
structure LasHeader where
  /-- `las.header.major_version` / `las.header.minor_version`
  (flat fields, tried first). -/
  major_minor : Option (ℕ × ℕ)
  /-- `las.header.version.major` / `las.header.version.minor`
  (structured accessor, the fallback). -/
  version_obj : Option (ℕ × ℕ)
  /-- `las.header.point_format.id` (tried first). -/
  point_format_id : Option ℕ
  /-- `las.header.point_data_format_id` (legacy flat field, the fallback). -/
  point_data_format_id : Option ℕ
deriving DecidableEq, Repr

/-- A loaded `laspy.LasData` object as seen by the loader: decoded points
(`las.x/y/z` already scaled to real-world units by laspy), optional raw
16-bit color channels (`las.red/green/blue`), optional intensity. -/
structure LasData where
  header : LasHeader
  points : List P3
  rgb : Option (List (ℚ × ℚ × ℚ))
  intensity : Option (List ℚ)
deriving DecidableEq, Repr

/-- `LiDARLoader.extract_points` (loader.py:86-98):
`np.column_stack((las.x, las.y, las.z))`. -/
def extract_points (las : LasData) : List P3 := las.points

/-- `LiDARLoader.extract_colors` (loader.py:100-122): if the `red`,
`green` and `blue` channels are all present, each 16-bit value is divided
by 65535.0; otherwise `None`. -/
def extract_colors (las : LasData) : Option (List P3) :=
  las.rgb.map (List.map (fun c =>
    { x := c.1 / 65535, y := c.2.1 / 65535, z := c.2.2 / 65535 }))

/-- `LiDARLoader.extract_intensity` (loader.py:124-141). -/
def extract_intensity (las : LasData) : Option (List ℚ) := las.intensity

/-- `PointCloudMetadata` (models/schemas.py).  The version f-string
`f"{major}.{minor}"` is modelled by the pair `(major, minor)`. -/
structure PointCloudMetadata where
  filename : String
  point_count : ℕ
  bounds : PointCloudBounds
  has_colors : Bool
  has_intensity : Bool
  file_size : ℕ
  las_version : ℕ × ℕ
  point_data_format : ℕ
deriving DecidableEq, Repr

/-- The `ValueError`s `LiDARLoader.get_metadata` raises. -/
inductive MetadataError where
  /-- "Cannot determine LAS version" (loader.py:210-212). -/
  | versionUnavailable : MetadataError
  /-- "Cannot determine point format" (loader.py:225-227). -/
  | formatUnavailable : MetadataError
deriving DecidableEq, Repr

/-- The version accessor chain of `get_metadata` (loader.py:197-212):
try `las.header.major_version/minor_version`, on `AttributeError` try
`las.header.version.major/minor`. -/
def resolveVersion (h : LasHeader) : Option (ℕ × ℕ) :=
  h.major_minor.orElse fun _ => h.version_obj

/-- The point-format accessor chain of `get_metadata` (loader.py:214-227):
try `las.header.point_format.id`, on `AttributeError` try
`las.header.point_data_format_id`. -/
def resolveFormat (h : LasHeader) : Option ℕ :=
  h.point_format_id.orElse fun _ => h.point_data_format_id

/-- `LiDARLoader.get_metadata` (loader.py:173-261).  Extracts points,
colors, intensity and bounds, resolves version and point format through
their fallback chains, and raises `ValueError` (re-raised unchanged by the
outer handler) when a whole chain fails; otherwise returns the metadata
record.  `len(las.points)` is the record count. -/
def get_metadata (file_path : String) (file_size : ℕ) (las : LasData) :
    Except MetadataError PointCloudMetadata :=
  let points := extract_points las
  let colors := extract_colors las
  let intens := extract_intensity las
  let bounds := calculate_bounds points
  match resolveVersion las.header with
  | none => .error .versionUnavailable
  | some v =>
    match resolveFormat las.header with
    | none => .error .formatUnavailable
    | some fmt =>
      .ok { filename := file_path, point_count := las.points.length,
            bounds := bounds, has_colors := colors.isSome,
            has_intensity := intens.isSome, file_size := file_size,
            las_version := v, point_data_format := fmt }

/-- The population `n_original` the intensity branch of `get_point_data`
reconstructs before redrawing indices (routes.py:210):
`n_original = int(n_points / downsample)`. -/
def routes_intensity_population (n_points : ℕ) (downsample : ℚ) : ℕ :=
  (pyInt ((n_points : ℚ) / downsample)).toNat

/-- The intensity selection of `get_point_data` (routes.py:206-215):
```
if downsample and downsample < 1.0:
    n_points = len(points)
    n_original = int(n_points / downsample)
    indices = np.random.choice(n_original, size=n_points, replace=False)
    sampled_intensity = intensity[indices]
else:
    sampled_intensity = intensity[: len(points)]
```
The fresh draw (over `routes_intensity_population`) is the explicit
argument `draw`; note the code does not sort it and does not reuse the
reducer's draw.  `downsample = some r` with `r = 0` is falsy in Python,
hence the `r ≠ 0` conjunct. -/
def routes_intensity_sample (intensity : List ℚ) (n_points : ℕ)
    (downsample : Option ℚ) (draw : List ℕ) : List ℚ :=
  match downsample with
  | some r => if r ≠ 0 ∧ r < 1 then gather intensity draw
              else intensity.take n_points
  | none => intensity.take n_points

/-! ### Helper lemmas -/

theorem length_insertNat (a : ℕ) (l : List ℕ) :
    (insertNat a l).length = l.length + 1 := by
  induction l with
  | nil => rfl
  | cons b r ih =>
    simp only [insertNat]
    split
    · simp
    · simp [ih]

theorem mem_insertNat (a b : ℕ) (l : List ℕ) :
    b ∈ insertNat a l ↔ b = a ∨ b ∈ l := by
  induction l with
  | nil => simp [insertNat]
  | cons c r ih =>
    simp only [insertNat]
    split
    · simp [or_comm, or_assoc, or_left_comm]
    · simp [ih]
      tauto

theorem length_sortNat (l : List ℕ) : (sortNat l).length = l.length := by
  induction l with
  | nil => rfl
  | cons a r ih =>
    simp only [sortNat, List.foldr_cons] at ih ⊢
    rw [length_insertNat, ih, List.length_cons]

theorem mem_sortNat (i : ℕ) (l : List ℕ) : i ∈ sortNat l ↔ i ∈ l := by
  induction l with
  | nil => simp [sortNat]
  | cons a r ih =>
    simp only [sortNat, List.foldr_cons] at ih ⊢
    rw [mem_insertNat, ih, List.mem_cons]

theorem gather_length (xs : List α) (indices : List ℕ)
    (h : ∀ i ∈ indices, i < xs.length) :
    (gather xs indices).length = indices.length := by
  induction indices with
  | nil => rfl
  | cons i r ih =>
    have hi : i < xs.length := h i (List.mem_cons_self i r)
    simp only [gather, List.filterMap_cons, List.getElem?_eq_getElem hi]
    simp only [gather] at ih
    simp [ih fun j hj => h j (List.mem_cons_of_mem i hj)]

theorem foldl_min_le (l : List ℚ) : ∀ a : ℚ, l.foldl min a ≤ a := by
  induction l with
  | nil => intro a; simp
  | cons b r ih =>
    intro a
    calc (b :: r).foldl min a = r.foldl min (min a b) := by rw [List.foldl_cons]
    _ ≤ min a b := ih (min a b)
    _ ≤ a := min_le_left a b

theorem le_foldl_max (l : List ℚ) : ∀ a : ℚ, a ≤ l.foldl max a := by
  induction l with
  | nil => intro a; simp
  | cons b r ih =>
    intro a
    calc a ≤ max a b := le_max_left a b
    _ ≤ r.foldl max (max a b) := ih (max a b)
    _ = (b :: r).foldl max a := by rw [List.foldl_cons]

theorem foldl_min_const (l : List ℚ) (c : ℚ) (h : ∀ x ∈ l, x = c) :
    l.foldl min c = c := by
  induction l with
  | nil => rfl
  | cons b r ih =>
    have hb : b = c := h b (List.mem_cons_self b r)
    simp only [List.foldl_cons, hb, min_self]
    exact ih fun x hx => h x (List.mem_cons_of_mem b hx)

theorem foldl_max_const (l : List ℚ) (c : ℚ) (h : ∀ x ∈ l, x = c) :
    l.foldl max c = c := by
  induction l with
  | nil => rfl
  | cons b r ih =>
    have hb : b = c := h b (List.mem_cons_self b r)
    simp only [List.foldl_cons, hb, max_self]
    exact ih fun x hx => h x (List.mem_cons_of_mem b hx)

theorem pyInt_intCast (n : ℤ) : pyInt (n : ℚ) = n := by
  rw [pyInt]
  split <;> simp

theorem int_log_eq_of (q : ℚ) (e : ℤ) (h0 : 0 < q) (h1 : 2 ^ e ≤ q)
    (h2 : q < 2 ^ (e + 1)) : Int.log 2 q = e := by
  have hb : 1 < 2 := by norm_num
  have hle : e ≤ Int.log 2 q := by
    rw [← Int.zpow_le_iff_le_log hb h0]
    exact_mod_cast h1
  have hlt : Int.log 2 q < e + 1 := by
    rw [← Int.lt_zpow_iff_log_lt hb h0]
    exact_mod_cast h2
  omega

theorem fl64abs_eval (q : ℚ) (e : ℤ) (h0 : 0 < q) (h1 : 2 ^ e ≤ q)
    (h2 : q < 2 ^ (e + 1)) :
    fl64abs q = (roundNE (q * 2 ^ (52 - e)) : ℚ) / 2 ^ (52 - e) := by
  rw [fl64abs, if_neg (ne_of_gt h0), int_log_eq_of q e h0 h1 h2]

/-! ### Claims -/

/-- Claim C10: for every cloud and every sample rate ≥ 1.0,
`downsample_random` is the identity, returning positions and colors
exactly as supplied. -/
theorem downsample_identity_at_full_rate (points : List P3)
    (colors : Option (List P3)) (sample_rate : ℚ) (draw : List ℕ)
    (h : 1 ≤ sample_rate) :
    downsample_random points colors sample_rate draw = .ok (points, colors) := by
  rw [downsample_random, if_pos h]

/-- Witness for C10: `downsample_random` at rate 1 on a concrete
one-point colored cloud returns it unchanged. -/
theorem downsample_identity_at_full_rate_witness :
    downsample_random [⟨1, 2, 3⟩] (some [⟨1, 0, 0⟩]) 1 [] =
      .ok ([⟨1, 2, 3⟩], some [⟨1, 0, 0⟩]) :=
  downsample_identity_at_full_rate [⟨1, 2, 3⟩] (some [⟨1, 0, 0⟩]) 1 []
    (le_refl 1)

/-- Counterexample to C3: rate 0 lies outside (0,1], yet `downsample_random`
does not fail with any parameter error — it silently returns an empty
cloud (`int(1 * 0.0) = 0`, and `np.random.choice(1, size=0)` succeeds). -/
theorem downsample_zero_rate_no_error :
    downsample_random [⟨1, 2, 3⟩] none 0 [] = .ok ([], none) := by
  rw [downsample_random, if_neg (by norm_num)]
  norm_num [pyInt, sortNat, gather]

/-- Claim C3 (amended): `downsample_random` performs no eager rate
validation and never raises a dedicated `InvalidParameter` error.  For a
rate ≤ 0 the branch taken is decided by the computed sample size
`int(n_points * rate)`: when it is 0 (e.g. rate = 0, or `n_points * |rate|`
< 1) the call succeeds and returns the gathered (empty) selection; when it
is negative the failure happens only inside `np.random.choice`, as a
negative-dimension `ValueError`. -/
theorem downsample_nonpositive_rate (points : List P3)
    (colors : Option (List P3)) (sample_rate : ℚ) (draw : List ℕ)
    (h : sample_rate ≤ 0) :
    (0 ≤ pyInt ((points.length : ℚ) * sample_rate) →
      downsample_random points colors sample_rate draw =
        .ok (gather points (sortNat draw),
             colors.map (fun cs => gather cs (sortNat draw)))) ∧
    (pyInt ((points.length : ℚ) * sample_rate) < 0 →
      downsample_random points colors sample_rate draw =
        .error .negativeSize) := by
  have hlt : ¬ (1 : ℚ) ≤ sample_rate := by linarith
  constructor
  · intro hk
    rw [downsample_random, if_neg hlt]
    simp only [if_neg (not_lt.mpr hk)]
  · intro hk
    rw [downsample_random, if_neg hlt]
    simp only [if_pos hk]

/-- Witness for C3 (amended): at rate 0 on a one-point cloud the call
succeeds with an empty result, and at rate -1 it fails inside the
sampling call. -/
theorem downsample_nonpositive_rate_witness :
    downsample_random [⟨1, 2, 3⟩] none 0 [] =
      .ok (gather [⟨1, 2, 3⟩] (sortNat []), none) ∧
    downsample_random [⟨1, 2, 3⟩] none (-1) [] = .error .negativeSize := by
  constructor
  · exact (downsample_nonpositive_rate [⟨1, 2, 3⟩] none 0 [] (le_refl 0)).1
      (by norm_num [pyInt])
  · refine (downsample_nonpositive_rate [⟨1, 2, 3⟩] none (-1) []
      (by norm_num)).2 ?_
    have h : ((List.length [(⟨1, 2, 3⟩ : P3)] : ℕ) : ℚ) * (-1) =
        ((-1 : ℤ) : ℚ) := by norm_num
    rw [h, pyInt_intCast]
    norm_num

/-- Counterexample to C4: height colorization of the empty cloud does not
return an empty color array — `np.min` of the empty Z column raises a
`ValueError`. -/
theorem height_colors_empty_raises :
    generate_height_colors [] = .error .emptyReduction := rfl

/-- Claim C4 (amended): on the empty cloud, intensity-grayscale
colorization returns an empty color array without error, but height
colorization raises (`np.min` of a zero-size array) instead of returning
an empty array. -/
theorem empty_cloud_colorization :
    generate_intensity_colors [] = [] ∧
    generate_height_colors [] = .error .emptyReduction :=
  ⟨rfl, rfl⟩

/-- Claim C7: for every non-empty cloud whose points all share one Z
value (so `z_max == z_min`), height colorization assigns every point
exactly the color (0.5, 0.5, 0.5); no division by zero occurs. -/
theorem height_colors_flat (points : List P3) (c : ℚ) (hne : points ≠ [])
    (hflat : ∀ p ∈ points, p.z = c) :
    generate_height_colors points =
      .ok (List.replicate points.length { x := 1/2, y := 1/2, z := 1/2 }) := by
  obtain ⟨p, rest, rfl⟩ := List.exists_cons_of_ne_nil hne
  have hp : p.z = c := hflat p (List.mem_cons_self p rest)
  have hrest : ∀ q ∈ rest.map P3.z, q = c := by
    intro q hq
    obtain ⟨u, hu, rfl⟩ := List.mem_map.mp hq
    exact hflat u (List.mem_cons_of_mem p hu)
  rw [generate_height_colors]
  simp only [List.map_cons, npMin, npMax, hp]
  rw [foldl_min_const _ c hrest, foldl_max_const _ c hrest]
  simp

/-- Witness for C7: a concrete 2-point flat cloud (both points at Z = 5)
is colored uniform gray. -/
theorem height_colors_flat_witness :
    generate_height_colors [⟨0, 0, 5⟩, ⟨1, 1, 5⟩] =
      .ok (List.replicate 2 { x := 1/2, y := 1/2, z := 1/2 }) := by
  have h := height_colors_flat [⟨0, 0, 5⟩, ⟨1, 1, 5⟩] 5 (by simp)
    (by
      intro p hp
      simp only [List.mem_cons, List.not_mem_nil, or_false] at hp
      rcases hp with rfl | rfl <;> rfl)
  simpa using h

/-- Claim C9: `calculate_bounds` returns all six fields exactly 0 on the
empty cloud, and satisfies min ≤ max on each axis on a non-empty cloud. -/
theorem calculate_bounds_spec (points : List P3) :
    (points = [] → calculate_bounds points =
      { min_x := 0, max_x := 0, min_y := 0, max_y := 0,
        min_z := 0, max_z := 0 }) ∧
    (points ≠ [] →
      (calculate_bounds points).min_x ≤ (calculate_bounds points).max_x ∧
      (calculate_bounds points).min_y ≤ (calculate_bounds points).max_y ∧
      (calculate_bounds points).min_z ≤ (calculate_bounds points).max_z) := by
  cases points with
  | nil => exact ⟨fun _ => rfl, fun h => absurd rfl h⟩
  | cons p rest =>
    refine ⟨fun h => absurd h (List.cons_ne_nil p rest), fun _ => ?_⟩
    simp only [calculate_bounds, List.map_cons, npMin, npMax]
    refine ⟨?_, ?_, ?_⟩ <;>
      exact le_trans (foldl_min_le _ _) (le_foldl_max _ _)

/-- Witness for C9: bounds of the empty cloud are the zero record, and on
a concrete 2-point cloud each axis satisfies min ≤ max. -/
theorem calculate_bounds_spec_witness :
    calculate_bounds [] =
      { min_x := 0, max_x := 0, min_y := 0, max_y := 0,
        min_z := 0, max_z := 0 } ∧
    ((calculate_bounds [⟨0, 4, 1⟩, ⟨2, 3, 7⟩]).min_x ≤
      (calculate_bounds [⟨0, 4, 1⟩, ⟨2, 3, 7⟩]).max_x ∧
     (calculate_bounds [⟨0, 4, 1⟩, ⟨2, 3, 7⟩]).min_y ≤
      (calculate_bounds [⟨0, 4, 1⟩, ⟨2, 3, 7⟩]).max_y ∧
     (calculate_bounds [⟨0, 4, 1⟩, ⟨2, 3, 7⟩]).min_z ≤
      (calculate_bounds [⟨0, 4, 1⟩, ⟨2, 3, 7⟩]).max_z) :=
  ⟨(calculate_bounds_spec []).1 rfl,
   (calculate_bounds_spec [⟨0, 4, 1⟩, ⟨2, 3, 7⟩]).2 (by simp)⟩

/-- Claim C8: for every non-empty cloud, `normalize_scale` computes the
extent `current_size`; when all points are coincident the extent is 0 and
the points are returned unchanged with scale factor 1 (no division by
zero); otherwise every coordinate is multiplied by
`target_size / current_size`. -/
theorem normalize_scale_spec (points : List P3) (target_size : ℚ)
    (hne : points ≠ []) :
    ∃ e, cloudExtent points = some e ∧
      (∀ p0, (∀ p ∈ points, p = p0) → e = 0) ∧
      (e = 0 → normalize_scale points target_size = .ok (points, 1)) ∧
      (e ≠ 0 → normalize_scale points target_size = .ok
        (points.map (fun p =>
          { x := p.x * (target_size / e), y := p.y * (target_size / e),
            z := p.z * (target_size / e) }), target_size / e)) := by
  obtain ⟨p, rest, rfl⟩ := List.exists_cons_of_ne_nil hne
  refine ⟨max (max ((rest.map P3.x).foldl max p.x - (rest.map P3.x).foldl min p.x)
              ((rest.map P3.y).foldl max p.y - (rest.map P3.y).foldl min p.y))
          ((rest.map P3.z).foldl max p.z - (rest.map P3.z).foldl min p.z),
          rfl, ?_, ?_, ?_⟩
  · intro p0 hall
    have hx : ∀ q ∈ rest.map P3.x, q = p0.x := by
      intro q hq
      obtain ⟨u, hu, rfl⟩ := List.mem_map.mp hq
      rw [hall u (List.mem_cons_of_mem p hu)]
    have hy : ∀ q ∈ rest.map P3.y, q = p0.y := by
      intro q hq
      obtain ⟨u, hu, rfl⟩ := List.mem_map.mp hq
      rw [hall u (List.mem_cons_of_mem p hu)]
    have hz : ∀ q ∈ rest.map P3.z, q = p0.z := by
      intro q hq
      obtain ⟨u, hu, rfl⟩ := List.mem_map.mp hq
      rw [hall u (List.mem_cons_of_mem p hu)]
    have hp0 : p = p0 := hall p (List.mem_cons_self p rest)
    rw [hp0, foldl_min_const _ _ hx, foldl_max_const _ _ hx,
        foldl_min_const _ _ hy, foldl_max_const _ _ hy,
        foldl_min_const _ _ hz, foldl_max_const _ _ hz]
    simp
  · intro he
    rw [normalize_scale]
    simp only [cloudExtent, List.map_cons, npMin, npMax]
    rw [if_pos he]
  · intro he
    rw [normalize_scale]
    simp only [cloudExtent, List.map_cons, npMin, npMax]
    rw [if_neg he]

/-- Witness for C8: a concrete cloud of two identical points has extent 0
and is returned unchanged with scale factor 1, and a concrete 2-point
cloud of extent 4 has every coordinate multiplied by 10/4. -/
theorem normalize_scale_spec_witness :
    normalize_scale [⟨1, 2, 3⟩, ⟨1, 2, 3⟩] 10 = .ok ([⟨1, 2, 3⟩, ⟨1, 2, 3⟩], 1) ∧
    normalize_scale [⟨0, 0, 0⟩, ⟨4, 0, 0⟩] 10 =
      .ok (([⟨0, 0, 0⟩, ⟨4, 0, 0⟩] : List P3).map (fun p =>
        { x := p.x * (10 / (4 : ℚ)), y := p.y * (10 / (4 : ℚ)),
          z := p.z * (10 / (4 : ℚ)) }), 10 / 4) := by
  constructor
  · obtain ⟨e, he, hconst, hzero, _⟩ :=
      normalize_scale_spec [⟨1, 2, 3⟩, ⟨1, 2, 3⟩] 10 (by simp)
    have he0 : e = 0 := by
      refine hconst ⟨1, 2, 3⟩ ?_
      intro q hq
      simp only [List.mem_cons, List.not_mem_nil, or_false] at hq
      rcases hq with rfl | rfl <;> rfl
    exact hzero he0
  · obtain ⟨e, he, _, _, hscale⟩ :=
      normalize_scale_spec [⟨0, 0, 0⟩, ⟨4, 0, 0⟩] 10 (by simp)
    have he4 : e = 4 := by
      have : cloudExtent [⟨0, 0, 0⟩, ⟨4, 0, 0⟩] = some 4 := by
        rw [cloudExtent]
        norm_num [npMin, npMax]
      rw [this] at he
      exact (Option.some_injective ℚ he).symm
    rw [he4] at hscale
    exact hscale (by norm_num)

/-- Claim C5: for every cloud of N points and every `max_points`,
`limit_points` is the identity when N ≤ max_points, and otherwise (for any
possible random draw) succeeds with a result of length ≤ max_points. -/
theorem limit_points_spec (points : List P3) (colors : Option (List P3))
    (max_points : ℕ) (draw : List ℕ) :
    (points.length ≤ max_points →
      limit_points points colors max_points draw = .ok (points, colors)) ∧
    (ValidDraw points.length max_points draw →
      ∃ ps cs, limit_points points colors max_points draw = .ok (ps, cs) ∧
        ps.length ≤ max_points) := by
  constructor
  · intro hle
    rw [limit_points, if_pos hle]
  · intro hdraw
    by_cases hle : points.length ≤ max_points
    · exact ⟨points, colors, by rw [limit_points, if_pos hle], hle⟩
    · have hlt : max_points < points.length := lt_of_not_le hle
      have hN : (0 : ℚ) < (points.length : ℚ) := by
        exact_mod_cast Nat.pos_of_ne_zero (by omega)
      have hrate : ¬ (1 : ℚ) ≤ (max_points : ℚ) / (points.length : ℚ) := by
        rw [not_le, div_lt_one hN]
        exact_mod_cast hlt
      have hprod : ((points.length : ℕ) : ℚ) *
          ((max_points : ℚ) / (points.length : ℚ)) =
          ((max_points : ℤ) : ℚ) := by
        field_simp
      have hk : pyInt (((points.length : ℕ) : ℚ) *
          ((max_points : ℚ) / (points.length : ℚ))) = max_points := by
        rw [hprod, pyInt_intCast]
      rw [limit_points, if_neg hle, downsample_random, if_neg hrate]
      simp only [hk]
      rw [if_neg (by exact_mod_cast not_lt.mpr (Int.ofNat_nonneg max_points))]
      refine ⟨gather points (sortNat draw),
        colors.map (fun cs => gather cs (sortNat draw)), rfl, ?_⟩
      obtain ⟨hlen, _, hbound⟩ := hdraw
      rw [gather_length points (sortNat draw)
        (fun i hi => hbound i ((mem_sortNat i draw).mp hi))]
      rw [length_sortNat, hlen]

/-- Witness for C5: on a one-point cloud with max_points = 3 the call is
the identity, and on a concrete 2-point cloud with max_points = 1 and the
draw `[0]` the result has length ≤ 1. -/
theorem limit_points_spec_witness :
    limit_points [⟨1, 2, 3⟩] none 3 [] = .ok ([⟨1, 2, 3⟩], none) ∧
    (∃ ps cs, limit_points [⟨0, 0, 0⟩, ⟨1, 1, 1⟩] none 1 [0] = .ok (ps, cs) ∧
      ps.length ≤ 1) :=
  ⟨(limit_points_spec [⟨1, 2, 3⟩] none 3 []).1 (by simp),
   (limit_points_spec [⟨0, 0, 0⟩, ⟨1, 1, 1⟩] none 1 [0]).2
     ⟨rfl, List.nodup_singleton 0, by simp⟩⟩

/-- Counterexample to C2: a loaded file whose point count is determinable
(one decoded point record) but on which neither the current nor the
legacy accessor resolves the version makes `get_metadata` raise a
`ValueError` — no metadata record with a sentinel value is produced. -/
theorem metadata_no_sentinel_downgrade :
    get_metadata "scan.las" 100
      ⟨⟨none, none, none, none⟩, [⟨0, 0, 0⟩], none, none⟩ =
      .error .versionUnavailable ∧
    (LasData.mk ⟨none, none, none, none⟩ [⟨0, 0, 0⟩] none none).points.length
      = 1 :=
  ⟨rfl, rfl⟩

/-- Claim C2 (amended): `get_metadata` fails fatally (ValueError)
whenever a whole accessor chain fails — when neither the flat-field nor
the structured accessor resolves the version, or neither format accessor
resolves the point-record format.  No sentinel downgrade exists.  A
metadata record is produced exactly when both chains resolve; the point
count (`len(las.points)`) is always determinable and never the cause of
failure. -/
theorem get_metadata_spec (file_path : String) (file_size : ℕ)
    (las : LasData) :
    (resolveVersion las.header = none →
      get_metadata file_path file_size las = .error .versionUnavailable) ∧
    (∀ v, resolveVersion las.header = some v →
      resolveFormat las.header = none →
      get_metadata file_path file_size las = .error .formatUnavailable) ∧
    (∀ v fmt, resolveVersion las.header = some v →
      resolveFormat las.header = some fmt →
      get_metadata file_path file_size las = .ok
        { filename := file_path, point_count := las.points.length,
          bounds := calculate_bounds (extract_points las),
          has_colors := (extract_colors las).isSome,
          has_intensity := (extract_intensity las).isSome,
          file_size := file_size, las_version := v,
          point_data_format := fmt }) := by
  refine ⟨?_, ?_, ?_⟩
  · intro hv
    rw [get_metadata]
    simp only [hv]
  · intro v hv hf
    rw [get_metadata]
    simp only [hv, hf]
  · intro v fmt hv hf
    rw [get_metadata]
    simp only [hv, hf]

/-- Witness for C2 (amended): a concrete loaded file on which the flat
version accessor and the structured format accessor resolve yields the
expected record. -/
theorem get_metadata_spec_witness :
    get_metadata "a.las" 42
      ⟨⟨some (1, 4), none, some 6, none⟩, [⟨0, 0, 0⟩], none, some [7]⟩ =
      .ok { filename := "a.las", point_count := 1,
            bounds := calculate_bounds [⟨0, 0, 0⟩],
            has_colors := false, has_intensity := true,
            file_size := 42, las_version := (1, 4),
            point_data_format := 6 } := by
  have h := (get_metadata_spec "a.las" 42
    ⟨⟨some (1, 4), none, some 6, none⟩, [⟨0, 0, 0⟩], none, some [7]⟩).2.2
    (1, 4) 6 rfl rfl
  simpa [extract_points, extract_colors, extract_intensity] using h

/-- Claim C1 (shown false on the code, as documented by the code's own
comment "Need to apply same sampling to intensity"): on a 2-point cloud
with intensity [10, 20] downsampled at rate 1/2, the Cloud Reducer can
keep exactly the point of index 1 (a valid draw), whose intensity is 20;
the intensity branch of `get_point_data` then draws fresh indices over
the reconstructed population `int(1 / 0.5) = 2`, and the valid fresh draw
[0] attaches intensity 10 — not the retained point's intensity 20.  The
single index selection of the reducer is therefore not what gathers
intensity. -/
theorem intensity_resample_mismatch :
    downsample_random [⟨0, 0, 0⟩, ⟨1, 1, 1⟩] none (1/2) [1] =
      .ok ([⟨1, 1, 1⟩], none) ∧
    ValidDraw 2 1 [1] ∧
    routes_intensity_population 1 (1/2) = 2 ∧
    ValidDraw (routes_intensity_population 1 (1/2)) 1 [0] ∧
    routes_intensity_sample [10, 20] 1 (some (1/2)) [0] = [10] ∧
    gather [10, 20] (sortNat [1]) = [20] ∧
    ([10] : List ℚ) ≠ [20] := by
  have hpop : routes_intensity_population 1 (1/2) = 2 := by
    rw [routes_intensity_population]
    have h : ((1 : ℕ) : ℚ) / (1/2) = ((2 : ℤ) : ℚ) := by norm_num
    rw [h, pyInt_intCast]
    rfl
  refine ⟨?_, ⟨rfl, by simp, by simp⟩, hpop,
          by rw [hpop]; exact ⟨rfl, by simp, by simp⟩, ?_, ?_, by simp⟩
  · rw [downsample_random, if_neg (by norm_num)]
    have hk : pyInt (((List.length [P3.mk 0 0 0, P3.mk 1 1 1] : ℕ) : ℚ) *
        (1/2)) = 1 := by
      have h : ((List.length [P3.mk 0 0 0, P3.mk 1 1 1] : ℕ) : ℚ) * (1/2) =
          ((1 : ℤ) : ℚ) := by norm_num
      rw [h, pyInt_intCast]
    simp only [hk]
    rfl
  · rw [routes_intensity_sample, if_pos (by norm_num)]
    rfl
  · rfl

/-- Counterexample to C6's example: at N = 3, max_points = 2, the kept
count is int(3 * float64(2/3)) = 2, not 1 — the product
3 × 6004799503160661/2^53 = (2^54-1)/2^53 rounds (tie to even) up to
exactly 2.0, so exactly max_points points are kept there. -/
theorem limitFloat_example_keeps_two : limitFloatCount 3 2 = 2 := by
  have hd : fl64 ((2 : ℚ) / 3) = 6004799503160661 / 2^53 := by
    rw [fl64, if_neg (by norm_num),
        fl64abs_eval ((2 : ℚ)/3) (-1) (by norm_num) (by norm_num) (by norm_num)]
    norm_num [roundNE]
  have hm : fl64 ((3 : ℚ) * (6004799503160661 / 2^53)) = 2 := by
    rw [fl64, if_neg (by norm_num),
        fl64abs_eval _ 0 (by norm_num) (by norm_num) (by norm_num)]
    norm_num [roundNE]
  rw [limitFloatCount]
  norm_num
  rw [hd, hm]
  have h2 : (2 : ℚ) = ((2 : ℤ) : ℚ) := by norm_num
  rw [h2, pyInt_intCast]
  rfl

/-- Claim C6 (amended): there exist N and max_points with N > max_points
for which `limit_points` keeps strictly fewer than max_points points, the
kept count being int(N * float64(max_points / N)): at N = 22,
max_points = 15, float64(15/22) rounds down and the product rounds to
just below 15, so only 14 points are kept. -/
theorem limitFloat_shortfall :
    ∃ n_points max_points : ℕ, max_points < n_points ∧
      limitFloatCount n_points max_points < max_points := by
  refine ⟨22, 15, by norm_num, ?_⟩
  have hd : fl64 ((15 : ℚ) / 22) = 6141272219141585 / 2^53 := by
    rw [fl64, if_neg (by norm_num),
        fl64abs_eval ((15 : ℚ)/22) (-1) (by norm_num) (by norm_num) (by norm_num)]
    norm_num [roundNE]
  have hm : fl64 ((22 : ℚ) * (6141272219141585 / 2^53)) =
      8444249301319679 / 2^49 := by
    rw [fl64, if_neg (by norm_num),
        fl64abs_eval _ 3 (by norm_num) (by norm_num) (by norm_num)]
    norm_num [roundNE]
  rw [limitFloatCount]
  norm_num
  rw [hd, hm]
  norm_num [pyInt]
